import Mathlib

/-!
Verification of the Orion conversational-assistant core: the session state
machine of src/App.tsx and the prompt-assembly / gateway pipeline of
src/services/geminiService.ts, embedded shallowly in Lean.

JavaScript strings are modelled as Lean `String` (lists of characters);
JavaScript numbers that the code only multiplies, compares with null, and
renders with toFixed(0) are modelled as `ℚ`; `undefined`-able values are
modelled as `Option`; a thrown exception is modelled as `Except.error`.
-/

set_option maxRecDepth 40000

namespace Orion

/-! ## JavaScript string primitives -/

/-- Character class trimmed by JavaScript String.prototype.trim (ASCII part;
the code only ever distinguishes all-whitespace input from other input). -/
def jsWhitespace (c : Char) : Bool :=
  c = ' ' || c = '\t' || c = '\n' || c = '\r' || c = '\x0b' || c = '\x0c'

/-- Builds a string back from its character list. -/
def ofChars (l : List Char) : String := ⟨l⟩

/-- Models JavaScript String.prototype.trim. -/
def jsTrim (s : String) : String :=
  ofChars (((s.data.dropWhile jsWhitespace).reverse.dropWhile jsWhitespace).reverse)

/-- Models JavaScript String.prototype.split with a single-character
separator: the list of maximal separator-free segments, keeping empty
segments, as split(',') / split(';') / split(':') do. -/
def splitCh (c : Char) : List Char → List (List Char)
  | [] => [[]]
  | x :: xs =>
    let r := splitCh c xs
    if x = c then [] :: r else (x :: r.headD []) :: r.tail

/-- Models the JavaScript expression `x || d` for a possibly-undefined
string `x`: undefined and the empty string both fall back to `d`. -/
def jsOrDefault (o : Option String) (d : String) : String :=
  match o with
  | some s => if s = "" then d else s
  | none => d

/-- Executable substring test: does `n` occur as a prefix of `l`? -/
def prefixAt : List Char → List Char → Bool
  | [], _ => true
  | _ :: _, [] => false
  | a :: as, b :: bs => a == b && prefixAt as bs

/-- Executable substring test: does `n` occur contiguously inside `l`? -/
def infixB (n : List Char) : List Char → Bool
  | [] => n.isEmpty
  | b :: bs => prefixAt n (b :: bs) || infixB n bs

/-- `occursB needle hay` is true exactly when `needle` occurs as a
contiguous substring of `hay` (see `infixB_iff`). -/
def occursB (needle hay : String) : Bool := infixB needle.data hay.data

/-- Models Number.prototype.toFixed(0): round to the nearest integer,
ties toward the larger integer (ECMA-262 chooses the larger candidate),
then render in decimal. `⌊q + 1/2⌋ = (2·num + den) fdiv (2·den)`. -/
def jsToFixed0 (q : ℚ) : String :=
  toString (Int.fdiv (2 * q.num + (q.den : ℤ)) (2 * (q.den : ℤ)))

/-- Models JavaScript default number-to-string rendering for the integral
values used by this development (non-integral rendering is not exercised
by any claim). -/
def jsNum (q : ℚ) : String :=
  if q.den = 1 then toString q.num else toString q.num ++ "/" ++ toString (q.den : ℤ)

/-! ## Data model (src/unnamed/part_000, the types module) -/

/-- Sender enum. -/
inductive Sender where
  | user
  | orion
deriving DecidableEq

/-- OrionState enum: Idle, Listening, Thinking, Responding, Error. -/
inductive OrionState where
  | idle
  | listening
  | thinking
  | responding
  | error
deriving DecidableEq

/-- Message record; `attachments` is an optional field in the source, so it
is an `Option`. Timestamps are opaque instants, modelled as `Nat`. -/
structure Message where
  id : String
  text : String
  sender : Sender
  timestamp : Nat
  attachments : Option (List String)
deriving DecidableEq

/-- Optional geolocation payload of DeviceContext. -/
structure Geolocation where
  lat : ℚ
  lng : ℚ
deriving DecidableEq

/-- DeviceContext record; `batteryLevel: number | null` becomes an Option,
`geolocation?` likewise. -/
structure DeviceContext where
  batteryLevel : Option ℚ
  isCharging : Bool
  isOnline : Bool
  platform : String
  currentTime : String
  geolocation : Option Geolocation
deriving DecidableEq

/-- The three personality values of OrionSettings. -/
inductive Personality where
  | professional
  | friendly
  | direct
deriving DecidableEq

/-- The three visualIntensity values of OrionSettings. -/
inductive VisualIntensity where
  | minimal
  | balanced
  | immersive
deriving DecidableEq

/-- OrionSettings record. -/
structure OrionSettings where
  personality : Personality
  visualIntensity : VisualIntensity
  voiceEnabled : Bool
deriving DecidableEq

/-! ## Constants (src/constants.ts) -/

/-- DEFAULT_SETTINGS from src/constants.ts. -/
def DEFAULT_SETTINGS : OrionSettings :=
  { personality := Personality.professional
    visualIntensity := VisualIntensity.balanced
    voiceEnabled := false }

/-- INITIAL_GREETING from src/constants.ts. -/
def INITIAL_GREETING : String :=
  "Orion systems online. Physiological and environmental sensors calibrated. How may I assist you today?"

/-! ## Prompt assembler and response gateway (src/services/geminiService.ts) -/

/-- The three fixed tone descriptions of `personalityTraits` in
getSystemInstruction. -/
def personalityTraits : Personality → String
  | Personality.professional =>
    "efficient, precise, and polite. Use technical terminology when appropriate but prioritize clarity."
  | Personality.friendly =>
    "warm, approachable, and conversational. Use emojis sparingly and sound like a helpful companion."
  | Personality.direct =>
    "concise to the point of brevity. Eliminate pleasantries and focus entirely on the data or action."

/-- The template text of getSystemInstruction up to the Tone interpolation. -/
def sysBeforeTone : String :=
  "\n    You are ORION, a next-generation intelligent operational entity living within this device.\n    You are not a chatbot; you are a cognitive layer between the user and the system.\n\n    Your Identity:\n    - Name: ORION\n    - Tone: "

/-- The Power interpolation: battery percentage, or the placeholder
"Unknown" when batteryLevel is null. -/
def powerSlot (context : DeviceContext) : String :=
  match context.batteryLevel with
  | some lvl => jsToFixed0 (lvl * 100) ++ "%"
  | none => "Unknown"

/-- The geolocation interpolation: a Location line when geolocation is
present, the empty string when it is absent. -/
def locationSlot (context : DeviceContext) : String :=
  match context.geolocation with
  | some geo => "- Location: Lat " ++ jsNum geo.lat ++ ", Lng " ++ jsNum geo.lng
  | none => ""

/-- The template text of getSystemInstruction after the Tone interpolation:
core directive, environmental context (time, connection, power, platform,
optional location), capabilities, and visual-output guide. -/
def sysAfterTone (context : DeviceContext) : String :=
  "\n    - Core Directive: Observe, Interpret, Suggest, Execute.\n\n    Current Environmental Context:\n    - Time: "
    ++ context.currentTime
    ++ "\n    - Connection: "
    ++ (if context.isOnline then "Online" else "Offline")
    ++ "\n    - Power: "
    ++ powerSlot context
    ++ " "
    ++ (if context.isCharging then "(Charging)" else "(Discharging)")
    ++ "\n    - Platform: "
    ++ context.platform
    ++ "\n    "
    ++ locationSlot context
    ++ "\n\n    Capabilities:\n    - You can analyze images provided by the user.\n    - You simulate a persistent memory of this session.\n    - You should reference the device status if relevant (e.g., if battery is low, suggest saving energy).\n\n    Visual Output Guide:\n    - Use Markdown for formatting.\n    - Keep responses visually clean. \n  "

/-- getSystemInstruction: renders the system-instruction template from the
device context and the settings personality. -/
def getSystemInstruction (context : DeviceContext) (settings : OrionSettings) : String :=
  sysBeforeTone ++ personalityTraits settings.personality ++ sysAfterTone context

/-- `history.slice(-6)`: the at-most-six most recent transcript entries. -/
def recentHistory (history : List Message) : List Message :=
  history.drop (history.length - 6)

/-- One rendered conversation line: the sender label, a colon, the message
text, and a newline. -/
def historyLine (msg : Message) : String :=
  (if msg.sender = Sender.user then "User" else "Orion") ++ ": " ++ msg.text ++ "\n"

/-- The `conversationContext` accumulator: the recent-history lines
concatenated in order by the forEach loop. -/
def conversationContext (history : List Message) : String :=
  (recentHistory history).foldl (fun acc msg => acc ++ historyLine msg) ""

/-- The `fullPrompt` template: conversation context, a newline, the
"User: " label, and the new prompt text. -/
def fullPrompt (history : List Message) (currentPrompt : String) : String :=
  conversationContext history ++ "\nUser: " ++ currentPrompt

/-- One element of the `parts` array sent to the service: the text part or
an inlineData image part (whose data is undefined when the attachment
string had no comma). -/
inductive Part where
  | text (t : String)
  | inlineData (mimeType : String) (data : Option String)
deriving DecidableEq

/-- The image-part builder of the forEach loop over `images`:
`rawBase64 = base64.split(',')[1]`,
`mimeType = base64.split(';')[0].split(':')[1]`, with the
`mimeType || 'image/png'` fallback. -/
def mkImagePart (base64 : String) : Part :=
  let rawBase64 : Option String := ((splitCh ',' base64.data)[1]?).map ofChars
  let mimeType : Option String :=
    ((splitCh ':' ((splitCh ';' base64.data).headD []))[1]?).map ofChars
  Part.inlineData (jsOrDefault mimeType "image/png") rawBase64

/-- The request shape handed to `ai.models.generateContent`. -/
structure GenRequest where
  model : String
  parts : List Part
  systemInstruction : String
  temperature : ℚ
deriving DecidableEq

/-- The pure request-assembly portion of generateOrionResponse: text part
first (recent history plus new prompt), then one image part per attachment
in attachment order, with the fixed model name and temperature and the
rendered system instruction. -/
def buildRequest (history : List Message) (currentPrompt : String)
    (images : List String) (context : DeviceContext) (settings : OrionSettings) :
    GenRequest :=
  { model := "gemini-2.5-flash-preview"
    parts := Part.text (fullPrompt history currentPrompt) :: images.map mkImagePart
    systemInstruction := getSystemInstruction context settings
    temperature := 7 / 10 }

/-- The two failure modes of generateOrionResponse: the missing-credential
throw before any call, and a rethrown external-call error. -/
inductive GatewayError where
  | configuration
  | service
deriving DecidableEq

/-- Result of the one external `generateContent` call: success carries
`response.text` (a string or undefined), failure models a thrown error. -/
inductive CallOutcome where
  | success (text : Option String)
  | failure
deriving DecidableEq

/-- The fallback literal returned when `response.text` is empty or
undefined. -/
def fallbackText : String := "Systems unresponsive. Please try again."

/-- generateOrionResponse: throws when `process.env.API_KEY` is absent or
empty (before any external call), otherwise assembles the request, performs
the call, rethrows its failure, and replaces an empty response text with
the fallback literal. The environment variable is `apiKey` here and the
external call result is the `outcome` oracle. -/
def generateOrionResponse (apiKey : Option String) (history : List Message)
    (currentPrompt : String) (images : List String) (context : DeviceContext)
    (settings : OrionSettings) (outcome : CallOutcome) :
    Except GatewayError String :=
  if apiKey.getD "" = "" then Except.error GatewayError.configuration
  else
    let _req := buildRequest history currentPrompt images context settings
    match outcome with
    | CallOutcome.failure => Except.error GatewayError.service
    | CallOutcome.success t => Except.ok (jsOrDefault t fallbackText)

/-! ## Session state machine (src/App.tsx) -/

/-- The React state of the App component that the session state machine
reads and writes: transcript, pending input text, assistant lifecycle
state, and pending image attachments. -/
structure AppState where
  messages : List Message
  input : String
  orionState : OrionState
  attachedImages : List String
deriving DecidableEq

/-- The guard of handleSendMessage:
`(!input.trim() && attachedImages.length === 0) || orionState === Thinking`
makes the handler return without any state change. -/
def submitRejected (s : AppState) : Prop :=
  (jsTrim s.input = "" ∧ s.attachedImages = []) ∨ s.orionState = OrionState.thinking

instance (s : AppState) : Decidable (submitRejected s) :=
  inferInstanceAs
    (Decidable ((jsTrim s.input = "" ∧ s.attachedImages = []) ∨ s.orionState = OrionState.thinking))

/-- The `newUserMessage` object built on an accepted submit: id and
timestamp from Date.now(), the raw (untrimmed) input text, the user sender,
and a copy of the attached images. -/
def mkUserMessage (s : AppState) (now : Nat) : Message :=
  { id := toString now
    text := s.input
    sender := Sender.user
    timestamp := now
    attachments := some s.attachedImages }

/-- The `newOrionMessage` object appended by the Responding-delay callback:
id Date.now()+1, the gateway response text, the orion sender. -/
def mkOrionMessage (responseText : String) (now : Nat) : Message :=
  { id := toString (now + 1)
    text := responseText
    sender := Sender.orion
    timestamp := now
    attachments := none }

/-- The synchronous phase of handleSendMessage: a rejected submit is a
no-op; an accepted submit appends the user message, clears the input and
the attachments, and enters Thinking before the gateway is invoked. -/
def stepSubmit (s : AppState) (now : Nat) : AppState :=
  if submitRejected s then s
  else
    { messages := s.messages ++ [mkUserMessage s now]
      input := ""
      orionState := OrionState.thinking
      attachedImages := [] }

/-- The events that drive the session state machine: the submit handler,
the gateway resolving (entering Responding), the 800ms display-delay
callback (append assistant message, back to Idle), the gateway rejecting
(entering Error), and the 3000ms error-reset callback (back to Idle). -/
inductive Event where
  | submit (now : Nat)
  | gatewaySuccess
  | respondTimeout (responseText : String) (now : Nat)
  | gatewayFailure
  | errorTimeout

/-- One step of the session state machine of handleSendMessage and its two
setTimeout continuations. -/
def step : Event → AppState → AppState
  | Event.submit now, s => stepSubmit s now
  | Event.gatewaySuccess, s => { s with orionState := OrionState.responding }
  | Event.respondTimeout t now, s =>
    { s with
      messages := s.messages ++ [mkOrionMessage t now]
      orionState := OrionState.idle }
  | Event.gatewayFailure, s => { s with orionState := OrionState.error }
  | Event.errorTimeout, s => { s with orionState := OrionState.idle }

/-- The fixed display delay before the assistant message is appended. -/
def responseDisplayDelayMs : Nat := 800

/-- The fixed Error-to-Idle reset delay. -/
def errorResetDelayMs : Nat := 3000

/-! ## Concrete sample values used by witnesses and counterexamples -/

/-- Concatenation of a list of strings in order. -/
def joinStrings : List String → String
  | [] => ""
  | s :: rest => s ++ joinStrings rest

/-- A representative device context with no battery reading and no
geolocation. -/
def ctxNoBattery : DeviceContext :=
  { batteryLevel := none
    isCharging := false
    isOnline := true
    platform := "Linux x86_64"
    currentTime := "1/1/2026, 12:00:00 PM"
    geolocation := none }

/-- The same context with a geolocation reading attached. -/
def ctxWithGeo : DeviceContext :=
  { ctxNoBattery with geolocation := some { lat := 12, lng := 34 } }

/-- A sample user-sent message. -/
def sampleUserMsg : Message :=
  { id := "u1", text := "hello", sender := Sender.user, timestamp := 0, attachments := none }

/-- A sample assistant-sent message. -/
def sampleOrionMsg : Message :=
  { id := "init-1", text := "hi", sender := Sender.orion, timestamp := 0, attachments := none }

/-- A six-entry history. -/
def sampleHistory6 : List Message := List.replicate 6 sampleUserMsg

/-- A sample idle app state with pending text input. -/
def sampleIdleState : AppState :=
  { messages := [], input := "hi", orionState := OrionState.idle, attachedImages := [] }

/-! ## Helper lemmas -/

theorem ofChars_data (l : List Char) : (ofChars l).data = l := rfl

theorem ofChars_eq_empty {l : List Char} (h : ofChars l = "") : l = [] := by
  have := congrArg String.data h
  simpa [ofChars_data] using this

theorem str_append_assoc (a b c : String) : a ++ b ++ c = a ++ (b ++ c) :=
  String.ext (by simp [String.data_append, List.append_assoc])

theorem prefixAt_iff (n l : List Char) : prefixAt n l = true ↔ n <+: l := by
  induction n generalizing l with
  | nil => simp [prefixAt]
  | cons a as ih =>
    cases l with
    | nil => simp [prefixAt]
    | cons b bs =>
      simp [prefixAt, List.cons_prefix_cons, ih, Bool.and_eq_true, beq_iff_eq]

theorem infixB_iff (n l : List Char) : infixB n l = true ↔ n <:+: l := by
  induction l with
  | nil => simp [infixB, List.isEmpty_iff]
  | cons b bs ih =>
    simp [infixB, Bool.or_eq_true, prefixAt_iff, ih, List.infix_cons_iff]

theorem occursB_iff (needle hay : String) :
    occursB needle hay = true ↔ needle.data <:+: hay.data :=
  infixB_iff needle.data hay.data

theorem occursB_of_parts (a b : String) (needle : String) :
    occursB needle (a ++ needle ++ b) = true := by
  rw [occursB_iff]
  refine ⟨a.data, b.data, ?_⟩
  simp [String.data_append, List.append_assoc]

theorem splitCh_ne_nil (c : Char) (l : List Char) : splitCh c l ≠ [] := by
  cases l with
  | nil => simp [splitCh]
  | cons x xs =>
    simp only [splitCh]
    split <;> simp

theorem splitCh_no_sep (c : Char) (l : List Char) (h : c ∉ l) : splitCh c l = [l] := by
  induction l with
  | nil => rfl
  | cons x xs ih =>
    have hx : ¬ x = c := fun hc => h (hc ▸ List.mem_cons_self x xs)
    have hxs : c ∉ xs := fun hc => h (List.mem_cons_of_mem x hc)
    simp [splitCh, hx, ih hxs]

theorem splitCh_append_sep (c : Char) (a b : List Char) (h : c ∉ a) :
    splitCh c (a ++ c :: b) = a :: splitCh c b := by
  induction a with
  | nil => simp [splitCh]
  | cons x a' ih =>
    have hx : ¬ x = c := fun hc => h (hc ▸ List.mem_cons_self x a')
    have ha : c ∉ a' := fun hc => h (List.mem_cons_of_mem x hc)
    simp [splitCh, hx, ih ha]

theorem foldl_historyLine (l : List Message) (a : String) :
    List.foldl (fun acc msg => acc ++ historyLine msg) a l =
      a ++ joinStrings (l.map historyLine) := by
  induction l generalizing a with
  | nil => simp [joinStrings, String.append_empty]
  | cons m t ih =>
    simp only [List.foldl_cons, List.map_cons, joinStrings, ih, str_append_assoc]

theorem conversationContext_eq (history : List Message) :
    conversationContext history =
      joinStrings ((recentHistory history).map historyLine) := by
  have h := foldl_historyLine (recentHistory history) ""
  simpa [conversationContext] using h

/-- The step function never enters the reserved Listening state: no branch
of handleSendMessage or of its timeout callbacks ever writes it, so it is
unreachable from the initial Idle state. -/
theorem step_preserves_not_listening (e : Event) (s : AppState)
    (h : s.orionState ≠ OrionState.listening) :
    (step e s).orionState ≠ OrionState.listening := by
  cases e with
  | submit now =>
    by_cases hr : submitRejected s
    · simpa [step, stepSubmit, hr] using h
    · simp [step, stepSubmit, hr]
  | gatewaySuccess => simp [step]
  | respondTimeout t now => simp [step]
  | gatewayFailure => simp [step]
  | errorTimeout => simp [step]

/-! ## Claims -/

/-- C9: the transcript is append-only: every operation of the session state
machine (submit, gateway success, the response-display timeout, gateway
failure, the error-reset timeout) either leaves the message list unchanged
or appends messages at its end, so the length never decreases, no existing
message is mutated, and insertion order is preserved. -/
theorem transcript_append_only (e : Event) (s : AppState) :
    ∃ tail, (step e s).messages = s.messages ++ tail := by
  cases e with
  | submit now =>
    by_cases hr : submitRejected s
    · exact ⟨[], by simp [step, stepSubmit, hr]⟩
    · exact ⟨[mkUserMessage s now], by simp [step, stepSubmit, hr]⟩
  | gatewaySuccess => exact ⟨[], by simp [step]⟩
  | respondTimeout t now => exact ⟨[mkOrionMessage t now], by simp [step]⟩
  | gatewayFailure => exact ⟨[], by simp [step]⟩
  | errorTimeout => exact ⟨[], by simp [step]⟩

/-- C1: submit is accepted only when the state is in
{Idle, Responding, Error} (given that the reserved Listening state is never
entered, see step_preserves_not_listening) and the pending text or image
list is non-empty; while Thinking, or with empty text and no images, it is
a no-op leaving the whole state (transcript, session state, pending input)
unchanged; on accept it appends exactly the one user message, clears the
pending input and images, and enters Thinking (the gateway outcome events
can only come afterwards). -/
theorem submit_guard_and_accept (s : AppState) (now : Nat)
    (hNotListening : s.orionState ≠ OrionState.listening) :
    (¬ submitRejected s →
      (s.orionState = OrionState.idle ∨ s.orionState = OrionState.responding ∨
        s.orionState = OrionState.error) ∧
      (s.input ≠ "" ∨ s.attachedImages ≠ []) ∧
      step (Event.submit now) s =
        { messages := s.messages ++ [mkUserMessage s now]
          input := ""
          orionState := OrionState.thinking
          attachedImages := [] } ∧
      (mkUserMessage s now).sender = Sender.user) ∧
    (s.orionState = OrionState.thinking ∨ (s.input = "" ∧ s.attachedImages = []) →
      step (Event.submit now) s = s) := by
  constructor
  · intro hacc
    have hnt : s.orionState ≠ OrionState.thinking := fun h =>
      hacc (Or.inr h)
    have hne : ¬ (jsTrim s.input = "" ∧ s.attachedImages = []) := fun h =>
      hacc (Or.inl h)
    refine ⟨?_, ?_, ?_, rfl⟩
    · cases h : s.orionState with
      | idle => exact Or.inl rfl
      | listening => exact absurd h hNotListening
      | thinking => exact absurd h hnt
      | responding => exact Or.inr (Or.inl rfl)
      | error => exact Or.inr (Or.inr rfl)
    · by_cases hi : s.input = ""
      · refine Or.inr fun himg => hne ⟨?_, himg⟩
        rw [hi]; rfl
      · exact Or.inl hi
    · simp [step, stepSubmit, submitRejected, hnt, hne]
  · intro hrej
    have : submitRejected s := by
      rcases hrej with h | ⟨hi, himg⟩
      · exact Or.inr h
      · exact Or.inl ⟨by rw [hi]; rfl, himg⟩
    simp [step, stepSubmit, this]

/-- Witness for C1 at a concrete idle state with pending text "hi". -/
theorem submit_guard_and_accept_witness :
    step (Event.submit 5) sampleIdleState =
      { messages := [mkUserMessage sampleIdleState 5]
        input := ""
        orionState := OrionState.thinking
        attachedImages := [] } :=
  ((submit_guard_and_accept sampleIdleState 5 (by decide)).1 (by decide)).2.2.1

/-- C2: an accepted submit from Idle whose gateway call fails drives the
session state Idle → Thinking → Error, and the 3000ms error-reset timer
then restores Idle; the final transcript is the pre-submit transcript plus
exactly the one user message appended on accept. -/
theorem gateway_failure_trace (s : AppState) (now : Nat)
    (hIdle : s.orionState = OrionState.idle)
    (hContent : ¬ (jsTrim s.input = "" ∧ s.attachedImages = [])) :
    (step (Event.submit now) s).orionState = OrionState.thinking ∧
    (step Event.gatewayFailure (step (Event.submit now) s)).orionState =
      OrionState.error ∧
    (step Event.errorTimeout
        (step Event.gatewayFailure (step (Event.submit now) s))).orionState =
      OrionState.idle ∧
    (step Event.errorTimeout
        (step Event.gatewayFailure (step (Event.submit now) s))).messages =
      s.messages ++ [mkUserMessage s now] ∧
    (mkUserMessage s now).sender = Sender.user ∧
    errorResetDelayMs = 3000 := by
  have hrej : ¬ submitRejected s := by
    intro h
    rcases h with h | h
    · exact hContent h
    · rw [hIdle] at h; cases h
  refine ⟨?_, ?_, ?_, ?_, rfl, rfl⟩ <;>
    simp [step, stepSubmit, hrej]

/-- Witness for C2 at a concrete idle state with pending text "hi". -/
theorem gateway_failure_trace_witness :
    (step Event.errorTimeout
        (step Event.gatewayFailure (step (Event.submit 5) sampleIdleState))).orionState =
      OrionState.idle ∧
    (step Event.errorTimeout
        (step Event.gatewayFailure (step (Event.submit 5) sampleIdleState))).messages =
      [mkUserMessage sampleIdleState 5] :=
  ⟨(gateway_failure_trace sampleIdleState 5 rfl (by decide)).2.2.1,
   (gateway_failure_trace sampleIdleState 5 rfl (by decide)).2.2.2.1⟩

/-- C3: the assembler renders at most the last 6 transcript entries, and
entries older than the last 6 do not appear: prepending any older history
in front of a 6-entry recent history leaves the whole built request (its
rendered text part included) unchanged. -/
theorem context_window_last_six :
    (∀ history : List Message, (recentHistory history).length ≤ 6) ∧
    (∀ (older recent : List Message) (currentPrompt : String)
        (images : List String) (context : DeviceContext)
        (settings : OrionSettings),
      recent.length = 6 →
      buildRequest (older ++ recent) currentPrompt images context settings =
        buildRequest recent currentPrompt images context settings) := by
  constructor
  · intro history
    simp only [recentHistory, List.length_drop]
    omega
  · intro older recent currentPrompt images context settings h6
    have hdrop : recentHistory (older ++ recent) = recentHistory recent := by
      simp only [recentHistory, List.length_append, h6,
        Nat.add_sub_cancel, Nat.sub_self, List.drop_zero]
      exact List.drop_left older recent
    simp [buildRequest, fullPrompt, conversationContext, hdrop]

/-- Witness for C3: a seventh, older entry does not change the request. -/
theorem context_window_last_six_witness :
    buildRequest (sampleOrionMsg :: sampleHistory6) "x" [] ctxNoBattery
        DEFAULT_SETTINGS =
      buildRequest sampleHistory6 "x" [] ctxNoBattery DEFAULT_SETTINGS :=
  context_window_last_six.2 [sampleOrionMsg] sampleHistory6 "x" [] ctxNoBattery
    DEFAULT_SETTINGS (by decide)

/-- C4 counterexample: the claim says history lines are rendered as
"User: ...\nAssistant: ...\n", but an assistant-sent entry is rendered with
the label "Orion", and "Assistant" appears nowhere in the text part. -/
theorem assistant_label_cex :
    occursB "Assistant:" (fullPrompt [sampleOrionMsg] "x") = false ∧
    occursB "Orion: hi\n" (fullPrompt [sampleOrionMsg] "x") = true :=
  ⟨rfl, rfl⟩

/-- C4 amended: the text part is the concatenation of one
"<Label>: <text>\n" line per recent entry, with label "User" for user
entries and "Orion" (not "Assistant") for assistant entries, followed by
"\nUser: " and the new user text; for empty history and new text "status?"
the text part is "\nUser: status?", which ends with "User: status?". -/
theorem prompt_text_part (history : List Message) (currentPrompt : String)
    (images : List String) (context : DeviceContext)
    (settings : OrionSettings) :
    (buildRequest history currentPrompt images context settings).parts.head? =
      some (Part.text
        (joinStrings ((recentHistory history).map historyLine) ++ "\nUser: "
          ++ currentPrompt)) ∧
    (∀ msg : Message, msg.sender = Sender.orion →
      historyLine msg = "Orion: " ++ msg.text ++ "\n") ∧
    (∀ msg : Message, msg.sender = Sender.user →
      historyLine msg = "User: " ++ msg.text ++ "\n") ∧
    fullPrompt [] "status?" = "\nUser: status?" := by
  refine ⟨?_, ?_, ?_, rfl⟩
  · simp [buildRequest, fullPrompt, conversationContext_eq, str_append_assoc]
  · intro msg h
    simp [historyLine, h, str_append_assoc]
  · intro msg h
    simp [historyLine, h, str_append_assoc]

/-- Witness for C4's amended statement at a concrete assistant entry. -/
theorem prompt_text_part_witness :
    historyLine sampleOrionMsg = "Orion: hi\n" ∧
    fullPrompt [] "status?" = "\nUser: status?" :=
  ⟨(prompt_text_part [] "" [] ctxNoBattery DEFAULT_SETTINGS).2.1
      sampleOrionMsg rfl,
   (prompt_text_part [] "" [] ctxNoBattery DEFAULT_SETTINGS).2.2.2⟩

/-- C5: a well-formed data-URI-like attachment
"<scheme>:<mime>;<mid>,<payload>" parses to an inlineData part whose
mimeType is the MIME type between the first ":" and the first ";" and
whose data is the payload after the first ","; the concrete string
"data:image/jpeg;base64,QUJD" yields mimeType "image/jpeg" and payload
"QUJD"; when the MIME type cannot be parsed (no ":" in the first
";"-segment, as in "garbage;base64,QUJD", or an empty parsed type, as in
"data:;base64,QUJD") the mimeType defaults to "image/png"; and the image
parts follow the text part in attachment order. -/
theorem image_part_parse (scheme mime mid payload : List Char)
    (hs1 : ';' ∉ scheme) (hs2 : ':' ∉ scheme) (hs3 : ',' ∉ scheme)
    (hm1 : ';' ∉ mime) (hm2 : ':' ∉ mime) (hm3 : ',' ∉ mime)
    (hm0 : mime ≠ []) (hmid : ',' ∉ mid) (hpay : ',' ∉ payload) :
    mkImagePart
        (ofChars (scheme ++ ':' :: (mime ++ ';' :: (mid ++ ',' :: payload)))) =
      Part.inlineData (ofChars mime) (some (ofChars payload)) ∧
    mkImagePart "data:image/jpeg;base64,QUJD" =
      Part.inlineData "image/jpeg" (some "QUJD") ∧
    (∀ s : String, ':' ∉ (splitCh ';' s.data).headD [] →
      ∃ d, mkImagePart s = Part.inlineData "image/png" d) ∧
    mkImagePart "garbage;base64,QUJD" =
      Part.inlineData "image/png" (some "QUJD") ∧
    mkImagePart "data:;base64,QUJD" =
      Part.inlineData "image/png" (some "QUJD") ∧
    ∀ (history : List Message) (currentPrompt : String)
      (images : List String) (context : DeviceContext)
      (settings : OrionSettings),
      (buildRequest history currentPrompt images context settings).parts =
        Part.text (fullPrompt history currentPrompt)
          :: images.map mkImagePart := by
  refine ⟨?_, rfl, ?_, rfl, rfl, fun _ _ _ _ _ => rfl⟩
  case refine_2 =>
    intro s h
    refine ⟨((splitCh ',' s.data)[1]?).map ofChars, ?_⟩
    have h' : splitCh ':' ((splitCh ';' s.data).head?.getD []) =
        [(splitCh ';' s.data).head?.getD []] :=
      splitCh_no_sep _ _ (by simpa [List.headD_eq_head?] using h)
    simp [mkImagePart, h', jsOrDefault]
  have hcomma :
      splitCh ',' (scheme ++ ':' :: (mime ++ ';' :: (mid ++ ',' :: payload))) =
        (scheme ++ ':' :: (mime ++ ';' :: mid)) :: [payload] := by
    have hpre : ',' ∉ scheme ++ ':' :: (mime ++ ';' :: mid) := by
      intro hmem
      rcases List.mem_append.1 hmem with h | h
      · exact hs3 h
      · rcases List.mem_cons.1 h with h | h
        · exact absurd h (by decide)
        · rcases List.mem_append.1 h with h | h
          · exact hm3 h
          · rcases List.mem_cons.1 h with h | h
            · exact absurd h (by decide)
            · exact hmid h
    have hshape :
        scheme ++ ':' :: (mime ++ ';' :: (mid ++ ',' :: payload)) =
          (scheme ++ ':' :: (mime ++ ';' :: mid)) ++ ',' :: payload := by
      simp [List.append_assoc]
    rw [hshape, splitCh_append_sep _ _ _ hpre, splitCh_no_sep _ _ hpay]
  have hsemi :
      splitCh ';' (scheme ++ ':' :: (mime ++ ';' :: (mid ++ ',' :: payload))) =
        (scheme ++ ':' :: mime) :: splitCh ';' (mid ++ ',' :: payload) := by
    have hpre : ';' ∉ scheme ++ ':' :: mime := by
      intro hmem
      rcases List.mem_append.1 hmem with h | h
      · exact hs1 h
      · rcases List.mem_cons.1 h with h | h
        · exact absurd h (by decide)
        · exact hm1 h
    have hshape :
        scheme ++ ':' :: (mime ++ ';' :: (mid ++ ',' :: payload)) =
          (scheme ++ ':' :: mime) ++ ';' :: (mid ++ ',' :: payload) := by
      simp [List.append_assoc]
    rw [hshape, splitCh_append_sep _ _ _ hpre]
  have hcolon : splitCh ':' (scheme ++ ':' :: mime) = scheme :: [mime] := by
    rw [splitCh_append_sep _ _ _ hs2, splitCh_no_sep _ _ hm2]
  have hmimeNe : ofChars mime ≠ "" := fun h => hm0 (ofChars_eq_empty h)
  simp [mkImagePart, ofChars_data, hcomma, hsemi, hcolon, jsOrDefault, hmimeNe]

/-- Witness for C5 at the concrete attachment "data:image/jpeg;base64,QUJD"
and at the unparseable attachment "garbage;base64,QUJD". -/
theorem image_part_parse_witness :
    mkImagePart
        (ofChars ("data".data ++ ':' ::
          ("image/jpeg".data ++ ';' :: ("base64".data ++ ',' :: "QUJD".data)))) =
      Part.inlineData (ofChars "image/jpeg".data) (some (ofChars "QUJD".data)) ∧
    (∃ d, mkImagePart "garbage;base64,QUJD" = Part.inlineData "image/png" d) :=
  ⟨(image_part_parse "data".data "image/jpeg".data "base64".data "QUJD".data
      (by decide) (by decide) (by decide) (by decide) (by decide) (by decide)
      (by decide) (by decide) (by decide)).1,
   (image_part_parse "data".data "image/jpeg".data "base64".data "QUJD".data
      (by decide) (by decide) (by decide) (by decide) (by decide) (by decide)
      (by decide) (by decide) (by decide)).2.2.1 "garbage;base64,QUJD"
      (by decide)⟩

/-- C10: building an image part is total and degrades on malformed input:
with no comma in the attachment the part's data payload is absent
(undefined), and with no ":"-prefixed MIME segment before the first ";"
the mimeType falls back to "image/png"; no attachment aborts assembly. -/
theorem image_part_degradation (s : String) :
    (( ',' ∉ s.data) → ∃ m, mkImagePart s = Part.inlineData m none) ∧
    ((':' ∉ (splitCh ';' s.data).headD []) →
      ∃ d, mkImagePart s = Part.inlineData "image/png" d) := by
  constructor
  · intro h
    refine ⟨jsOrDefault
      (((splitCh ':' ((splitCh ';' s.data).headD []))[1]?).map ofChars)
      "image/png", ?_⟩
    simp [mkImagePart, splitCh_no_sep _ _ h]
  · intro h
    refine ⟨((splitCh ',' s.data)[1]?).map ofChars, ?_⟩
    have h' : splitCh ':' ((splitCh ';' s.data).head?.getD []) =
        [(splitCh ';' s.data).head?.getD []] :=
      splitCh_no_sep _ _ (by simpa [List.headD_eq_head?] using h)
    simp [mkImagePart, h', jsOrDefault]

/-- Witness for C10 at the malformed attachment "hello". -/
theorem image_part_degradation_witness :
    (∃ m, mkImagePart "hello" = Part.inlineData m none) ∧
    (∃ d, mkImagePart "hello" = Part.inlineData "image/png" d) :=
  ⟨(image_part_degradation "hello").1 (by decide),
   (image_part_degradation "hello").2 (by decide)⟩

/-- C6 counterexample: the claim says an absent optional field is omitted
from the rendered system instruction rather than rendered as a placeholder,
but with batteryLevel absent the Power line is still rendered, with the
placeholder value "Unknown". -/
theorem battery_placeholder_cex :
    ctxNoBattery.batteryLevel = none ∧
    occursB "- Power: Unknown" (getSystemInstruction ctxNoBattery DEFAULT_SETTINGS)
      = true :=
  ⟨rfl, rfl⟩

/-- C6 amended: the rendered instruction is deterministic in
settings.personality and the context fields (the other settings fields do
not influence it); an absent geolocation omits the Location line entirely
(the slot renders the empty string), whereas an absent batteryLevel keeps
the Power line and renders the placeholder "Unknown". -/
theorem instruction_optional_fields (ctx : DeviceContext)
    (s₁ s₂ : OrionSettings) (hpers : s₁.personality = s₂.personality) :
    getSystemInstruction ctx s₁ = getSystemInstruction ctx s₂ ∧
    (ctx.geolocation = none → locationSlot ctx = "") ∧
    (ctx.batteryLevel = none → powerSlot ctx = "Unknown") ∧
    occursB "- Location:" (getSystemInstruction ctxNoBattery DEFAULT_SETTINGS)
      = false ∧
    occursB "- Location: Lat 12, Lng 34"
      (getSystemInstruction ctxWithGeo DEFAULT_SETTINGS) = true := by
  refine ⟨?_, ?_, ?_, rfl, rfl⟩
  · simp [getSystemInstruction, hpers]
  · intro h
    simp [locationSlot, h]
  · intro h
    simp [powerSlot, h]

/-- Witness for C6's amended statement: distinct visual-intensity and voice
settings render identically, and the geolocation-free context omits the
Location line. -/
theorem instruction_optional_fields_witness :
    getSystemInstruction ctxWithGeo DEFAULT_SETTINGS =
      getSystemInstruction ctxWithGeo
        { personality := Personality.professional
          visualIntensity := VisualIntensity.minimal
          voiceEnabled := true } ∧
    locationSlot ctxNoBattery = "" ∧
    powerSlot ctxNoBattery = "Unknown" :=
  ⟨(instruction_optional_fields ctxWithGeo DEFAULT_SETTINGS
      { personality := Personality.professional
        visualIntensity := VisualIntensity.minimal
        voiceEnabled := true } rfl).1,
   (instruction_optional_fields ctxNoBattery DEFAULT_SETTINGS DEFAULT_SETTINGS
      rfl).2.1 rfl,
   (instruction_optional_fields ctxNoBattery DEFAULT_SETTINGS DEFAULT_SETTINGS
      rfl).2.2.1 rfl⟩

/-- C7: with no credential configured (environment key absent or empty) the
gateway fails with the configuration error and its result does not depend
on the external call's outcome (the call is never performed); with a
credential configured, a successful call whose response text is empty or
undefined returns the literal fallback string, not an empty string and not
an error. -/
theorem gateway_config_and_fallback (apiKey : Option String)
    (history : List Message) (currentPrompt : String) (images : List String)
    (context : DeviceContext) (settings : OrionSettings) :
    (apiKey.getD "" = "" →
      ∀ outcome : CallOutcome,
        generateOrionResponse apiKey history currentPrompt images context
            settings outcome =
          Except.error GatewayError.configuration) ∧
    (apiKey.getD "" ≠ "" →
      generateOrionResponse apiKey history currentPrompt images context
          settings (CallOutcome.success (some "")) = Except.ok fallbackText ∧
      generateOrionResponse apiKey history currentPrompt images context
          settings (CallOutcome.success none) = Except.ok fallbackText ∧
      fallbackText = "Systems unresponsive. Please try again.") := by
  constructor
  · intro hk outcome
    simp [generateOrionResponse, hk]
  · intro hk
    refine ⟨?_, ?_, rfl⟩ <;>
      simp [generateOrionResponse, hk, jsOrDefault]

/-- Witness for C7 with a missing key and with the key "k". -/
theorem gateway_config_and_fallback_witness :
    generateOrionResponse none [] "" [] ctxNoBattery DEFAULT_SETTINGS
        CallOutcome.failure = Except.error GatewayError.configuration ∧
    generateOrionResponse (some "k") [] "" [] ctxNoBattery DEFAULT_SETTINGS
        (CallOutcome.success (some "")) = Except.ok fallbackText :=
  ⟨(gateway_config_and_fallback none [] "" [] ctxNoBattery DEFAULT_SETTINGS).1
      rfl CallOutcome.failure,
   ((gateway_config_and_fallback (some "k") [] "" [] ctxNoBattery
      DEFAULT_SETTINGS).2 (by decide)).1⟩

/-- C8: for every personality the rendered system instruction contains the
tone fragment selected by that personality (for every device context), and
contains neither of the other two fragments (checked on the representative
context). -/
theorem tone_fragment_exactly_one (p : Personality) (ctx : DeviceContext)
    (vi : VisualIntensity) (ve : Bool) :
    occursB (personalityTraits p)
        (getSystemInstruction ctx
          { personality := p, visualIntensity := vi, voiceEnabled := ve })
      = true ∧
    ∀ q : Personality, q ≠ p →
      occursB (personalityTraits q)
          (getSystemInstruction ctxNoBattery
            { personality := p, visualIntensity := vi, voiceEnabled := ve })
        = false := by
  constructor
  · exact occursB_of_parts sysBeforeTone (sysAfterTone ctx) (personalityTraits p)
  · intro q hq
    cases p <;> cases q <;> first
      | exact absurd rfl hq
      | rfl

/-- Witness for C8: the professional instruction contains the professional
fragment and not the friendly one. -/
theorem tone_fragment_exactly_one_witness :
    occursB (personalityTraits Personality.professional)
        (getSystemInstruction ctxNoBattery
          { personality := Personality.professional
            visualIntensity := VisualIntensity.balanced
            voiceEnabled := false })
      = true ∧
    occursB (personalityTraits Personality.friendly)
        (getSystemInstruction ctxNoBattery
          { personality := Personality.professional
            visualIntensity := VisualIntensity.balanced
            voiceEnabled := false })
      = false :=
  ⟨(tone_fragment_exactly_one Personality.professional ctxNoBattery
      VisualIntensity.balanced false).1,
   (tone_fragment_exactly_one Personality.professional ctxNoBattery
      VisualIntensity.balanced false).2 Personality.friendly (by decide)⟩

end Orion
